import Mathlib

/-!
Verification development for the kalendis-mcp code generator.

The repository is a static-template code generator: a fixed catalog of
endpoint descriptors (`src/endpoints.ts`) is rendered into TypeScript client
and route-handler source text (`src/generators/client.ts`), dispatched by an
MCP server (`src/server.ts`).  This file shallowly embeds the catalog, the
type projector, the method renderer, the client assemblers' observable
structure and the server's argument validation, and proves properties of the
embedding.  JavaScript template literals are transcribed to explicit string
concatenation; `{` and `}` inside string literals are written with the
escapes `\x7b` and `\x7d`.
-/

namespace Kalendis

/-! ### Generic string helpers

JavaScript's `String.prototype.includes`, `startsWith`, `endsWith`,
one-occurrence `replace('[]', '')`, and the `a || b` default idiom (where
`undefined` and the empty string are falsy) as executable Lean functions
over `List Char`. -/

/-- JS `s.includes(pat)`: some tail of `s` has `pat` as a prefix. -/
def strContains (s pat : String) : Bool :=
  s.toList.tails.any (fun t => pat.toList.isPrefixOf t)

/-- JS `s.startsWith(pat)`. -/
def strStartsWith (s pat : String) : Bool :=
  pat.toList.isPrefixOf s.toList

/-- JS `s.endsWith(pat)`. -/
def strEndsWith (s pat : String) : Bool :=
  pat.toList.isSuffixOf s.toList

/-- JS `s.replace('[]', '')`: remove the first occurrence of `[]`. -/
def removeFirstBrackets : List Char → List Char
  | [] => []
  | '[' :: ']' :: rest => rest
  | c :: rest => c :: removeFirstBrackets rest

/-- JS `s.replace('[]', '')` on `String`. -/
def strRemoveBrackets (s : String) : String :=
  String.mk (removeFirstBrackets s.toList)

/-- JS `v || d` for an optional string `v` (`undefined` and `""` are falsy). -/
def jsOr (v : Option String) (d : String) : String :=
  match v with
  | none => d
  | some s => if s = "" then d else s

/-! ### Data model (`src/endpoints.ts`)

`EndpointDefinition` as declared in `src/endpoints.ts` lines 8-33.  The
`description` prose fields and the `headers` lists are omitted: no generator
branch examined here reads them (they feed only the `list-endpoints` text).
Record-valued `params`/`body` mappings become association lists, keeping the
source's insertion order. -/

inductive Method where
  | GET
  | POST
  | PUT
  | DELETE
deriving DecidableEq

/-- Render an HTTP verb the way the generator interpolates `endpoint.method`. -/
def methodString : Method → String
  | Method.GET => "GET"
  | Method.POST => "POST"
  | Method.PUT => "PUT"
  | Method.DELETE => "DELETE"

/-- One query-parameter descriptor: `{type: 'string'|'number'|'boolean', required}`. -/
structure ParamField where
  type : String
  required : Bool
deriving DecidableEq

/-- One body-field descriptor: `{type: string, required}`. -/
structure BodyField where
  type : String
  required : Bool
deriving DecidableEq

/-- The `response` member: `{type: string}` (description omitted). -/
structure ResponseDef where
  type : String
deriving DecidableEq

/-- `EndpointDefinition` (src/endpoints.ts lines 8-33), descriptions and
headers omitted as noted above. -/
structure EndpointDefinition where
  path : String
  method : Method
  params : Option (List (String × ParamField)) := none
  body : Option (List (String × BodyField)) := none
  response : ResponseDef
deriving DecidableEq

/-! The 28 catalog entries of `ENDPOINTS` (src/endpoints.ts lines 35-552),
one definition per key, in source order. -/

def getUsersByAccountId : EndpointDefinition :=
  { path := "/v1/user/getUsersByAccountId"
    method := Method.GET
    response := { type := "\x7b data: User[]; meta: \x7b total: number; apiVersion?: string \x7d \x7d" } }

def addUser : EndpointDefinition :=
  { path := "/v1/user/addUser"
    method := Method.POST
    body := some [("id", { type := "string", required := false }),
                  ("name", { type := "string", required := true })]
    response := { type := "User" } }

def updateUser : EndpointDefinition :=
  { path := "/v1/user/updateUser"
    method := Method.PUT
    body := some [("id", { type := "string", required := true }),
                  ("name", { type := "string", required := false }),
                  ("timeZone", { type := "string", required := false })]
    response := { type := "User" } }

def deleteUser : EndpointDefinition :=
  { path := "/v1/user/deleteUser"
    method := Method.DELETE
    params := some [("id", { type := "string", required := true })]
    response := { type := "\x7bmessage: string\x7d" } }

def getAvailability : EndpointDefinition :=
  { path := "/v1/availability/getAvailability"
    method := Method.GET
    params := some [("userId", { type := "string", required := true }),
                    ("start", { type := "string", required := true }),
                    ("end", { type := "string", required := false }),
                    ("includeExceptions", { type := "string", required := false }),
                    ("includeBookings", { type := "string", required := false }),
                    ("timezone", { type := "string", required := false })]
    response := { type := "Array<\x7bstart: string, end: string, timeZone: string, offset: number, segments: Array<\x7bstart: string, end: string, id?: string, recurring?: boolean, expiration?: string | null, daysOfWeek?: Types.DaysOfWeek[], timeZone?: string\x7d>\x7d>" } }

def getAllAvailability : EndpointDefinition :=
  { path := "/v1/availability/getAllAvailability"
    method := Method.GET
    params := some [("start", { type := "string", required := true }),
                    ("end", { type := "string", required := false }),
                    ("timezone", { type := "string", required := false })]
    response := { type := "Array<\x7buserId: string, start: string, end: string, timeZone: string, offset: number, segments: Array<\x7bstart: string, end: string, id?: string, recurring?: boolean, expiration?: string | null, daysOfWeek?: Types.DaysOfWeek[]\x7d>\x7d>" } }

def getMultiUserCalculatedAvailability : EndpointDefinition :=
  { path := "/v1/availability/getMultiUserCalculatedAvailability"
    method := Method.POST
    body := some [("userIds", { type := "string[]", required := true }),
                  ("start", { type := "string", required := true }),
                  ("end", { type := "string", required := false }),
                  ("timezone", { type := "string", required := false })]
    response := { type := "Array<\x7buserId: string, availability: Array<\x7bstart: string, end: string, timeZone: string, offset: number, segments: Array<\x7bstart: string, end: string, id?: string, recurring?: boolean, expiration?: string | null, daysOfWeek?: Types.DaysOfWeek[], timeZone?: string, originalItemOffset?: number\x7d>\x7d>, offset: number, timeZone: string\x7d>" } }

def getRecurringAvailabilityByDate : EndpointDefinition :=
  { path := "/v1/availability/getRecurringAvailabilityByDate"
    method := Method.POST
    body := some [("userId", { type := "string", required := true }),
                  ("start", { type := "string", required := true }),
                  ("cadence", { type := "string", required := true }),
                  ("frequency", { type := "number", required := true }),
                  ("numberOfOccurrences", { type := "number", required := true }),
                  ("timezone", { type := "string", required := false })]
    response := { type := "Array<Array<\x7bstart: string, end: string, offset: number\x7d>>" } }

def getMatchingAvailabilityByDate : EndpointDefinition :=
  { path := "/v1/availability/getMatchingAvailabilityByDate"
    method := Method.POST
    body := some [("userIds", { type := "string[]", required := true }),
                  ("start", { type := "string", required := true }),
                  ("end", { type := "string", required := false }),
                  ("timezone", { type := "string", required := false })]
    response := { type := "Array<\x7bstart: string, end: string, timeZone: string, offset: number\x7d>" } }

def addAvailability : EndpointDefinition :=
  { path := "/v1/availability/addAvailability"
    method := Method.POST
    body := some [("userId", { type := "string", required := true }),
                  ("start", { type := "string", required := true }),
                  ("end", { type := "string", required := true }),
                  ("timezone", { type := "string", required := false })]
    response := { type := "Availability" } }

def updateAvailability : EndpointDefinition :=
  { path := "/v1/availability/updateAvailability"
    method := Method.PUT
    body := some [("availabilityId", { type := "string", required := true }),
                  ("userId", { type := "string", required := true }),
                  ("start", { type := "string", required := false }),
                  ("end", { type := "string", required := false }),
                  ("timezone", { type := "string", required := false })]
    response := { type := "Availability" } }

def deleteAvailability : EndpointDefinition :=
  { path := "/v1/availability/deleteAvailability"
    method := Method.DELETE
    params := some [("id", { type := "string", required := true }),
                    ("userId", { type := "string", required := true })]
    response := { type := "\x7bmessage: string\x7d" } }

def getRecurringAvailability : EndpointDefinition :=
  { path := "/v1/recurringAvailability/getRecurringAvailability"
    method := Method.GET
    params := some [("userId", { type := "string", required := true })]
    response := { type := "RecurringAvailability[]" } }

def addRecurringAvailability : EndpointDefinition :=
  { path := "/v1/recurringAvailability/addRecurringAvailability"
    method := Method.POST
    body := some [("userId", { type := "string", required := true }),
                  ("daysOfWeek", { type := "DaysOfWeek[]", required := true }),
                  ("start", { type := "string", required := true }),
                  ("end", { type := "string", required := true }),
                  ("expiration", { type := "string", required := false }),
                  ("timezone", { type := "string", required := false })]
    response := { type := "RecurringAvailability" } }

def updateRecurringAvailability : EndpointDefinition :=
  { path := "/v1/recurringAvailability/updateRecurringAvailability"
    method := Method.PUT
    body := some [("id", { type := "string", required := true }),
                  ("userId", { type := "string", required := true }),
                  ("daysOfWeek", { type := "DaysOfWeek[]", required := false }),
                  ("start", { type := "string", required := false }),
                  ("end", { type := "string", required := false }),
                  ("expiration", { type := "string", required := false }),
                  ("makeInfinite", { type := "boolean", required := false }),
                  ("timezone", { type := "string", required := false })]
    response := { type := "RecurringAvailability" } }

def deleteRecurringAvailability : EndpointDefinition :=
  { path := "/v1/recurringAvailability/deleteRecurringAvailability"
    method := Method.DELETE
    params := some [("userId", { type := "string", required := true }),
                    ("id", { type := "string", required := true })]
    response := { type := "\x7bmessage: string\x7d" } }

def getAvailabilityException : EndpointDefinition :=
  { path := "/v1/availabilityException/getAvailabilityException"
    method := Method.GET
    params := some [("userId", { type := "string", required := true }),
                    ("start", { type := "string", required := true }),
                    ("end", { type := "string", required := false })]
    response := { type := "AvailabilityException[]" } }

def addAvailabilityException : EndpointDefinition :=
  { path := "/v1/availabilityException/addAvailabilityException"
    method := Method.POST
    body := some [("userId", { type := "string", required := true }),
                  ("start", { type := "string", required := true }),
                  ("end", { type := "string", required := true }),
                  ("timezone", { type := "string", required := false })]
    response := { type := "AvailabilityException" } }

def addRecurringAvailabilityException : EndpointDefinition :=
  { path := "/v1/availabilityException/addRecurringAvailabilityException"
    method := Method.POST
    body := some [("userId", { type := "string", required := true }),
                  ("start", { type := "string", required := true }),
                  ("end", { type := "string", required := true }),
                  ("numberOfWeeks", { type := "number", required := true }),
                  ("timezone", { type := "string", required := false })]
    response := { type := "\x7bcount: number\x7d" } }

def updateAvailabilityException : EndpointDefinition :=
  { path := "/v1/availabilityException/updateAvailabilityException"
    method := Method.PUT
    body := some [("availabilityExceptionId", { type := "string", required := true }),
                  ("userId", { type := "string", required := true }),
                  ("start", { type := "string", required := false }),
                  ("end", { type := "string", required := false }),
                  ("timezone", { type := "string", required := false })]
    response := { type := "AvailabilityException" } }

def deleteAvailabilityException : EndpointDefinition :=
  { path := "/v1/availabilityException/deleteAvailabilityException"
    method := Method.DELETE
    params := some [("id", { type := "string", required := true }),
                    ("userId", { type := "string", required := true })]
    response := { type := "\x7bmessage: string\x7d" } }

def getBooking : EndpointDefinition :=
  { path := "/v1/booking/getBooking"
    method := Method.GET
    params := some [("userId", { type := "string", required := true }),
                    ("start", { type := "string", required := true }),
                    ("end", { type := "string", required := false })]
    response := { type := "Booking[]" } }

def getBookingsByIds : EndpointDefinition :=
  { path := "/v1/booking/getBookingsByIds"
    method := Method.POST
    body := some [("bookingIds", { type := "string[]", required := true })]
    response := { type := "Array<\x7bid: string, start: string, end: string, timeZone: string\x7d>" } }

def addBooking : EndpointDefinition :=
  { path := "/v1/booking/addBooking"
    method := Method.POST
    body := some [("users", { type := "string[]", required := true }),
                  ("start", { type := "string", required := true }),
                  ("end", { type := "string", required := true }),
                  ("allowDoubleBooking", { type := "boolean", required := false }),
                  ("timezone", { type := "string", required := false })]
    response := { type := "Booking" } }

def updateBooking : EndpointDefinition :=
  { path := "/v1/booking/updateBooking"
    method := Method.PUT
    body := some [("bookingId", { type := "string", required := true }),
                  ("users", { type := "string[]", required := false }),
                  ("start", { type := "string", required := false }),
                  ("end", { type := "string", required := false }),
                  ("timezone", { type := "string", required := false })]
    response := { type := "Booking" } }

def deleteBooking : EndpointDefinition :=
  { path := "/v1/booking/deleteBooking"
    method := Method.DELETE
    params := some [("id", { type := "string", required := true })]
    response := { type := "\x7bmessage: string\x7d" } }

def getAccount : EndpointDefinition :=
  { path := "/v1/account/getAccount"
    method := Method.GET
    response := { type := "Account" } }

def updateAccount : EndpointDefinition :=
  { path := "/v1/account/updateAccount"
    method := Method.PUT
    body := some [("name", { type := "string", required := false })]
    response := { type := "Account" } }

/-- `ENDPOINTS` (src/endpoints.ts lines 35-552) as an association list in the
source's insertion order: JS object iteration order is insertion order, which
is what `Object.entries(ENDPOINTS)` yields to the generators. -/
def ENDPOINTS : List (String × EndpointDefinition) :=
  [("getUsersByAccountId", getUsersByAccountId),
   ("addUser", addUser),
   ("updateUser", updateUser),
   ("deleteUser", deleteUser),
   ("getAvailability", getAvailability),
   ("getAllAvailability", getAllAvailability),
   ("getMultiUserCalculatedAvailability", getMultiUserCalculatedAvailability),
   ("getRecurringAvailabilityByDate", getRecurringAvailabilityByDate),
   ("getMatchingAvailabilityByDate", getMatchingAvailabilityByDate),
   ("addAvailability", addAvailability),
   ("updateAvailability", updateAvailability),
   ("deleteAvailability", deleteAvailability),
   ("getRecurringAvailability", getRecurringAvailability),
   ("addRecurringAvailability", addRecurringAvailability),
   ("updateRecurringAvailability", updateRecurringAvailability),
   ("deleteRecurringAvailability", deleteRecurringAvailability),
   ("getAvailabilityException", getAvailabilityException),
   ("addAvailabilityException", addAvailabilityException),
   ("addRecurringAvailabilityException", addRecurringAvailabilityException),
   ("updateAvailabilityException", updateAvailabilityException),
   ("deleteAvailabilityException", deleteAvailabilityException),
   ("getBooking", getBooking),
   ("getBookingsByIds", getBookingsByIds),
   ("addBooking", addBooking),
   ("updateBooking", updateBooking),
   ("deleteBooking", deleteBooking),
   ("getAccount", getAccount),
   ("updateAccount", updateAccount)]

/-! ### Generator model (`src/generators/client.ts`) -/

inductive Environment where
  | production
  | staging
  | development
deriving DecidableEq

inductive Framework where
  | react
  | nextjs
  | express
  | vanilla
  | fastify
  | nestjs
deriving DecidableEq

/-- `GenerateOptions` (src/generators/client.ts lines 21-26). -/
structure GenerateOptions where
  framework : Framework
  environment : Environment
  typesImportPath : Option String := none
  outputDir : Option String := none

/-- `BASE_URLS` (src/generators/client.ts lines 12-16).  The `development`
entry reads `process.env.KALENDIS_API_URL` when the generator module loads;
that environment variable is passed here explicitly as `kalendisApiUrl`
(JS `||` treats `undefined` and `""` as absent). -/
def BASE_URLS (kalendisApiUrl : Option String) : Environment → String
  | Environment.production => "https://api.kalendis.dev"
  | Environment.staging => "https://dev-303703761.us-central1.run.app"
  | Environment.development => jsOr kalendisApiUrl "https://sandbox.api.kalendis.dev"

/-- `needsTimezoneConversion` (src/generators/client.ts lines 28-35). -/
def needsTimezoneConversion (methodName : String) : Bool :=
  strContains methodName "Availability" ||
  strContains methodName "Booking" ||
  strContains methodName "availability" ||
  strContains methodName "booking"

/-- The domain-type registry hard-coded in `isKnownType`
(src/generators/client.ts line 68). -/
def knownTypes : List String :=
  ["User", "Availability", "RecurringAvailability", "AvailabilityException", "Booking", "Account"]

/-- `isKnownType` (src/generators/client.ts lines 67-70). -/
def isKnownType (type : String) : Bool :=
  knownTypes.contains type

/-- `mapResponseType` (src/generators/client.ts lines 37-65).
JS `type.replace('[]', '')` removes the first occurrence of `[]`;
`type.slice(6, -1)` drops the `Array<` head and the closing `>`. -/
def mapResponseType (type : String) (useTypes : Bool) : String :=
  if !useTypes then type
  else if strContains type "[]" then
    let baseType := strRemoveBrackets type
    if isKnownType baseType then "Types." ++ baseType ++ "[]"
    else baseType ++ "[]"
  else if strStartsWith type "Array<" then
    let innerType := String.mk ((type.toList.drop 6).dropLast)
    if isKnownType innerType then "Types." ++ innerType ++ "[]"
    else type
  else if isKnownType type then "Types." ++ type
  else if strStartsWith type "\x7b" && strEndsWith type "\x7d" then type
  else type

/-- `generateParamType` (src/generators/client.ts lines 72-75). -/
def generateParamType (param : ParamField) : String :=
  let tsType := if param.type = "number" then "number"
                else if param.type = "boolean" then "boolean"
                else "string"
  if param.required then tsType else tsType ++ " | undefined"

/-- `generateBodyType` (src/generators/client.ts lines 77-87). -/
def generateBodyType (field : BodyField) : String :=
  if strContains field.type "[]" then
    let baseType := strRemoveBrackets field.type
    let mappedType := if field.type = "DaysOfWeek[]" then "Types.DaysOfWeek[]"
                      else baseType ++ "[]"
    if field.required then mappedType else mappedType ++ " | undefined"
  else
    let tsType := if field.type = "number" then "number"
                  else if field.type = "boolean" then "boolean"
                  else "string"
    if field.required then tsType else tsType ++ " | undefined"

/-- `generateBaseClient` (src/generators/client.ts lines 89-143): the direct
client's preamble, transcribed line by line from the template literal with
`typesPath` interpolated.  The `environment` parameter is accepted exactly as
in the source — which never uses it: the emitted constructor always assigns
`process.env.KALENDIS_API_URL || 'https://sandbox.api.kalendis.dev'`. -/
def generateBaseClient (environment : Environment) (typesPath : String) : String :=
  "import * as Types from '" ++ typesPath ++ "';\n" ++
  "\n" ++
  "class KalendisClient \x7b\n" ++
  "  private readonly apiKey: string;\n" ++
  "  private readonly baseUrl: string;\n" ++
  "\n" ++
  "  constructor(options: \x7b apiKey: string \x7d) \x7b\n" ++
  "    if (!options.apiKey) \x7b\n" ++
  "      throw new Error('API key is required. Pass it in the constructor: new KalendisClient(\x7b apiKey: \"your-key\" \x7d)');\n" ++
  "    \x7d\n" ++
  "    this.apiKey = options.apiKey;\n" ++
  "    this.baseUrl = process.env.KALENDIS_API_URL || 'https://sandbox.api.kalendis.dev';\n" ++
  "  \x7d\n" ++
  "\n" ++
  "  private async request<T>(endpoint: string, options: RequestInit = \x7b\x7d): Promise<T> \x7b\n" ++
  "    const url = `$\x7bthis.baseUrl\x7d$\x7bendpoint\x7d`;\n" ++
  "    \n" ++
  "    try \x7b\n" ++
  "      const response = await fetch(url, \x7b\n" ++
  "        ...options,\n" ++
  "        headers: \x7b\n" ++
  "          'x-api-key': this.apiKey,\n" ++
  "          'Content-Type': 'application/json',\n" ++
  "          ...options.headers\n" ++
  "        \x7d\n" ++
  "      \x7d);\n" ++
  "\n" ++
  "      if (!response.ok) \x7b\n" ++
  "        let errorMessage = `Kalendis API Error ($\x7bresponse.status\x7d): $\x7bresponse.statusText\x7d`;\n" ++
  "        try \x7b\n" ++
  "          const error = await response.json();\n" ++
  "          errorMessage = `Kalendis API Error ($\x7bresponse.status\x7d): $\x7berror.message || error.error || response.statusText\x7d`;\n" ++
  "        \x7d catch \x7b\n" ++
  "          // Use default error message if response isn't JSON\n" ++
  "        \x7d\n" ++
  "        \n" ++
  "        if (response.status === 401) \x7b\n" ++
  "          throw new Error('Authentication failed: Invalid or missing API key');\n" ++
  "        \x7d else if (response.status === 403) \x7b\n" ++
  "          throw new Error('Permission denied: Your API key does not have access to this resource');\n" ++
  "        \x7d\n" ++
  "        \n" ++
  "        throw new Error(errorMessage);\n" ++
  "      \x7d\n" ++
  "\n" ++
  "      return response.json();\n" ++
  "    \x7d catch (error) \x7b\n" ++
  "      if (error instanceof TypeError && error.message.includes('fetch')) \x7b\n" ++
  "        throw new Error(`Cannot connect to Kalendis API at $\x7bthis.baseUrl\x7d. Please ensure the service is running.`);\n" ++
  "      \x7d\n" ++
  "      throw error;\n" ++
  "    \x7d\n" ++
  "  \x7d"

/-- The GET-with-params branch of `generateMethod`
(src/generators/client.ts lines 148-168). -/
def renderGetWithParams (name : String) (endpoint : EndpointDefinition)
    (params : List (String × ParamField)) : String :=
  let returnType := mapResponseType endpoint.response.type true
  let paramTypes := String.intercalate "\n"
    (params.map (fun kv => "    " ++ kv.1 ++ "?: " ++ generateParamType kv.2 ++ ";"))
  "\n  async " ++ name ++ "(params: \x7b\n" ++ paramTypes ++
  "\n  \x7d = \x7b\x7d): Promise<" ++ returnType ++ "> \x7b\n" ++
  "    const query = new URLSearchParams();\n" ++
  "    Object.entries(params).forEach(([key, value]) => \x7b\n" ++
  "      if (value !== undefined) \x7b\n" ++
  "        query.append(key, String(value));\n" ++
  "      \x7d\n" ++
  "    \x7d);\n" ++
  "    const queryString = query.toString();\n" ++
  "    return this.request<" ++ returnType ++ ">('" ++ endpoint.path ++
  "' + (queryString ? '?' + queryString : ''), \x7b\n" ++
  "      method: 'GET'\n" ++
  "    \x7d);\n" ++
  "  \x7d"

/-- The DELETE-with-params branch of `generateMethod`
(src/generators/client.ts lines 170-189): required parameter object, no
default value. -/
def renderDeleteWithParams (name : String) (endpoint : EndpointDefinition)
    (params : List (String × ParamField)) : String :=
  let returnType := mapResponseType endpoint.response.type true
  let paramTypes := String.intercalate "\n"
    (params.map (fun kv => "    " ++ kv.1 ++ ": " ++ generateParamType kv.2 ++ ";"))
  "\n  async " ++ name ++ "(params: \x7b\n" ++ paramTypes ++
  "\n  \x7d): Promise<" ++ returnType ++ "> \x7b\n" ++
  "    const query = new URLSearchParams();\n" ++
  "    Object.entries(params).forEach(([key, value]) => \x7b\n" ++
  "      if (value !== undefined) \x7b\n" ++
  "        query.append(key, String(value));\n" ++
  "      \x7d\n" ++
  "    \x7d);\n" ++
  "    return this.request<" ++ returnType ++ ">('" ++ endpoint.path ++
  "?' + query.toString(), \x7b\n" ++
  "      method: 'DELETE'\n" ++
  "    \x7d);\n" ++
  "  \x7d"

/-- The POST/PUT-with-body branch of `generateMethod`
(src/generators/client.ts lines 191-205). -/
def renderWithBody (name : String) (endpoint : EndpointDefinition)
    (body : List (String × BodyField)) : String :=
  let returnType := mapResponseType endpoint.response.type true
  let bodyTypes := String.intercalate "\n"
    (body.map (fun kv =>
      "    " ++ kv.1 ++ (if kv.2.required then "" else "?") ++ ": " ++ generateBodyType kv.2 ++ ";"))
  "\n  async " ++ name ++ "(data: \x7b\n" ++ bodyTypes ++
  "\n  \x7d): Promise<" ++ returnType ++ "> \x7b\n" ++
  "    return this.request<" ++ returnType ++ ">('" ++ endpoint.path ++ "', \x7b\n" ++
  "      method: '" ++ methodString endpoint.method ++ "',\n" ++
  "      body: JSON.stringify(data)\n" ++
  "    \x7d);\n" ++
  "  \x7d"

/-- The fallback zero-argument branch of `generateMethod`
(src/generators/client.ts lines 207-213). -/
def renderBare (name : String) (endpoint : EndpointDefinition) : String :=
  let returnType := mapResponseType endpoint.response.type true
  "\n  async " ++ name ++ "(): Promise<" ++ returnType ++ "> \x7b\n" ++
  "    return this.request<" ++ returnType ++ ">('" ++ endpoint.path ++ "', \x7b\n" ++
  "      method: '" ++ methodString endpoint.method ++ "'\n" ++
  "    \x7d);\n" ++
  "  \x7d"

/-- `generateMethod` (src/generators/client.ts lines 145-213).  The source is
a chain of `if` statements tried in order: GET with params, DELETE with
params, POST/PUT with body, then the bare fallback; the `match` arms below
reproduce that selection order exactly. -/
def generateMethod (name : String) (endpoint : EndpointDefinition) : String :=
  match endpoint.method, endpoint.params, endpoint.body with
  | Method.GET, some params, _ => renderGetWithParams name endpoint params
  | Method.DELETE, some params, _ => renderDeleteWithParams name endpoint params
  | Method.POST, _, some body => renderWithBody name endpoint body
  | Method.PUT, _, some body => renderWithBody name endpoint body
  | _, _, _ => renderBare name endpoint

/-- The four method shapes a catalog entry can be rendered into (§4.2 of the
spec): GET-with-params, DELETE-with-params, POST/PUT-with-body, bare. -/
inductive MethodShape where
  | getWithParams
  | deleteWithParams
  | withBody
  | bare
deriving DecidableEq

/-- Which of the four shapes `generateMethod`'s branch chain selects for a
descriptor.  Total: every descriptor, including one violating the catalog's
one-of `params`/`body` invariant, is assigned exactly one shape. -/
def shapeOf (endpoint : EndpointDefinition) : MethodShape :=
  match endpoint.method, endpoint.params, endpoint.body with
  | Method.GET, some _, _ => MethodShape.getWithParams
  | Method.DELETE, some _, _ => MethodShape.deleteWithParams
  | Method.POST, _, some _ => MethodShape.withBody
  | Method.PUT, _, some _ => MethodShape.withBody
  | _, _, _ => MethodShape.bare

/-- Rendering dispatched on an already-selected shape. -/
def renderShape (name : String) (endpoint : EndpointDefinition) : MethodShape → String
  | MethodShape.getWithParams => renderGetWithParams name endpoint (endpoint.params.getD [])
  | MethodShape.deleteWithParams => renderDeleteWithParams name endpoint (endpoint.params.getD [])
  | MethodShape.withBody => renderWithBody name endpoint (endpoint.body.getD [])
  | MethodShape.bare => renderBare name endpoint

/-- The method fragments of a backend client, one per catalog entry, in
catalog order (src/generators/client.ts lines 219-221). -/
def methodBlocks (catalog : List (String × EndpointDefinition)) : List String :=
  catalog.map (fun p => generateMethod p.1 p.2)

/-- `generateBackendClient`'s body (src/generators/client.ts lines 215-229)
generalized over the catalog it folds, so catalog-reordering properties can
be stated; the real entry point instantiates it with `ENDPOINTS`. -/
def generateBackendClientWith (catalog : List (String × EndpointDefinition))
    (options : GenerateOptions) : String :=
  let typesPath := jsOr options.typesImportPath "../types"
  let baseClient := generateBaseClient options.environment typesPath
  let methods := String.intercalate "\n" (methodBlocks catalog)
  baseClient ++ "\n" ++ methods ++ "\n\x7d\n\nexport default KalendisClient;\n"

/-- `generateBackendClient` (src/generators/client.ts lines 215-229). -/
def generateBackendClient (options : GenerateOptions) : String :=
  generateBackendClientWith ENDPOINTS options

/-! ### Behavior of the emitted request wrapper

The direct client's `request` method is emitted as text by
`generateBaseClient` (the template transcribed above, source lines 104-142).
The following definitions transcribe that emitted JavaScript into executable
form so its error classification can be proved: a fetch `Response` is
represented by its status, status text and optional parsed JSON error body
(`None` when `response.json()` rejects). -/

/-- The `message`/`error` fields of a parsed JSON error body.  JS `a || b`
falls through on `undefined` and on the empty string. -/
structure JsonErrorBody where
  message : Option String := none
  error : Option String := none
deriving DecidableEq

/-- fetch's `Response.ok`: status in the inclusive range 200-299. -/
def responseOk (status : Nat) : Bool :=
  200 ≤ status && status ≤ 299

/-- The error message the emitted `request` wrapper throws for a non-ok
response (emitted lines `if (!response.ok) { ... }`): status 401 and 403
have fixed overriding messages; otherwise the generic message built from the
JSON body's `message`, else its `error`, else the status text. -/
def requestErrorMessage (status : Nat) (statusText : String)
    (body : Option JsonErrorBody) : String :=
  if status == 401 then
    "Authentication failed: Invalid or missing API key"
  else if status == 403 then
    "Permission denied: Your API key does not have access to this resource"
  else
    match body with
    | some err =>
      "Kalendis API Error (" ++ toString status ++ "): " ++
        jsOr err.message (jsOr err.error statusText)
    | none =>
      "Kalendis API Error (" ++ toString status ++ "): " ++ statusText

/-- Outcome of the emitted `request` wrapper on an HTTP response that
arrived (no transport error): success passes the body through, a non-ok
status throws the classified error message. -/
def requestResult (status : Nat) (statusText : String)
    (body : Option JsonErrorBody) : Except String Unit :=
  if responseOk status then Except.ok ()
  else Except.error (requestErrorMessage status statusText body)

/-- The query-serialization loop emitted into GET and DELETE methods:
`Object.entries(params).forEach(([key, value]) => { if (value !== undefined)
{ query.append(key, String(value)); } })`.  A parameter object is an
association list of optional (already stringified) values, `none` standing
for `undefined`. -/
def emittedQueryEntries (vals : List (String × Option String)) : List (String × String) :=
  vals.filterMap (fun kv => kv.2.map (fun v => (kv.1, v)))

/-! ### The proxy (frontend) client (`generateFrontendClient`,
src/generators/client.ts lines 231-554)

The proxy client is one fixed template literal, not a fold over the catalog.
Each wrapper function in the emitted `api` object is recorded here by name,
in emission order, together with whether its success path applies
`convertToLocalTime` to the parsed response before returning it (`true` for
wrappers that end `return convertToLocalTime(...)`; `false` for wrappers
that end `return response.json()`). -/

structure FrontendWrapper where
  name : String
  convertsResponse : Bool
deriving DecidableEq

/-- The 28 wrappers of the emitted proxy client, transcribed from the
template in source order (src/generators/client.ts lines 238-549). -/
def frontendClientWrappers : List FrontendWrapper :=
  [⟨"getUsers", false⟩,
   ⟨"createUser", false⟩,
   ⟨"updateUser", false⟩,
   ⟨"deleteUser", false⟩,
   ⟨"getAvailability", true⟩,
   ⟨"getAllAvailability", true⟩,
   ⟨"getMultiUserCalculatedAvailability", true⟩,
   ⟨"getRecurringAvailabilityByDate", true⟩,
   ⟨"getMatchingAvailabilityByDate", true⟩,
   ⟨"addAvailability", true⟩,
   ⟨"updateAvailability", true⟩,
   ⟨"deleteAvailability", false⟩,
   ⟨"getRecurringAvailability", true⟩,
   ⟨"addRecurringAvailability", true⟩,
   ⟨"updateRecurringAvailability", true⟩,
   ⟨"deleteRecurringAvailability", false⟩,
   ⟨"getAvailabilityException", true⟩,
   ⟨"addAvailabilityException", true⟩,
   ⟨"addRecurringAvailabilityException", true⟩,
   ⟨"updateAvailabilityException", true⟩,
   ⟨"deleteAvailabilityException", false⟩,
   ⟨"getBookings", true⟩,
   ⟨"getBookingsByIds", true⟩,
   ⟨"createBooking", true⟩,
   ⟨"updateBooking", true⟩,
   ⟨"deleteBooking", false⟩,
   ⟨"getAccount", false⟩,
   ⟨"updateAccount", false⟩]

/-! ### Server-side argument validation (`src/server.ts`) -/

/-- The framework whitelist checked by the `generate-api-routes` tool
(src/server.ts line 154). -/
def validFrameworks : List String :=
  ["nextjs", "express", "fastify", "nestjs"]

/-- The rejection message thrown for an absent or unrecognized framework
(src/server.ts line 156). -/
def frameworkErrorMessage : String :=
  "Valid framework is required (nextjs, express, fastify, or nestjs)"

/-- Which framework generator the `generate-api-routes` tool dispatches to
on success. -/
inductive RouteArtifact where
  | nextjs
  | express
  | fastify
  | nestjs
deriving DecidableEq

/-- The `generate-api-routes` case of the tool dispatcher (src/server.ts
lines 149-192): validate the `framework` argument (JS `!args?.framework`
also rejects the falsy empty string), throw the descriptive error when it is
absent or off the whitelist — before any generator runs, so no artifact is
produced — and otherwise dispatch to the selected framework generator.  The
success value records which generator produced the artifact. -/
def generateApiRoutesTool (framework : Option String) : Except String RouteArtifact :=
  let fw := framework.getD ""
  if (framework.isNone || fw == "") || !(validFrameworks.contains fw) then
    Except.error frameworkErrorMessage
  else if fw == "nextjs" then Except.ok RouteArtifact.nextjs
  else if fw == "express" then Except.ok RouteArtifact.express
  else if fw == "fastify" then Except.ok RouteArtifact.fastify
  else if fw == "nestjs" then Except.ok RouteArtifact.nestjs
  else Except.error ("Unsupported framework: " ++ fw)

/-! ### Helper lemmas -/

set_option maxRecDepth 100000
set_option maxHeartbeats 2000000

/-- ASCII lowercasing, character by character (JS `toLowerCase` restricted to
ASCII, which covers every emitted message): used to state case-insensitive
containment. -/
def charLower (c : Char) : Char :=
  if 'A' ≤ c ∧ c ≤ 'Z' then Char.ofNat (c.toNat + 32) else c

/-- Lowercase a string via `charLower`. -/
def strLower (s : String) : String :=
  String.mk (s.toList.map charLower)

theorem mem_of_strContains {s pat : String} (h : strContains s pat = true) :
    ∀ c ∈ pat.toList, c ∈ s.toList := by
  intro c hc
  unfold strContains at h
  obtain ⟨t, ht, hp⟩ := List.any_eq_true.mp h
  exact ((List.mem_tails _ _).mp ht).subset ((List.isPrefixOf_iff_prefix.mp hp).subset hc)

theorem strContains_eq_false_of_not_mem {s pat : String} {c : Char}
    (hc : c ∈ pat.toList) (hs : c ∉ s.toList) : strContains s pat = false := by
  cases h : strContains s pat with
  | false => rfl
  | true => exact absurd (mem_of_strContains h c hc) hs

theorem mem_of_strStartsWith {s pat : String} (h : strStartsWith s pat = true) :
    ∀ c ∈ pat.toList, c ∈ s.toList := by
  intro c hc
  unfold strStartsWith at h
  exact (List.isPrefixOf_iff_prefix.mp h).subset hc

theorem strStartsWith_eq_false_of_not_mem {s pat : String} {c : Char}
    (hc : c ∈ pat.toList) (hs : c ∉ s.toList) : strStartsWith s pat = false := by
  cases h : strStartsWith s pat with
  | false => rfl
  | true => exact absurd (mem_of_strStartsWith h c hc) hs

theorem not_mem_of_all_alphanum {X : String} {c : Char}
    (hX : X.toList.all Char.isAlphanum = true) (hc : c.isAlphanum = false) :
    c ∉ X.toList := by
  intro hmem
  have := List.all_eq_true.mp hX c hmem
  rw [hc] at this
  exact Bool.false_ne_true this

theorem strStartsWith_of_append_chain (a b : String) :
    strStartsWith (a ++ b) a = true := by
  unfold strStartsWith
  rw [List.isPrefixOf_iff_prefix]
  show a.data <+: (a ++ b).data
  rw [String.data_append]
  exact List.prefix_append _ _

/-- A prefix of the backend client: the preamble emitted by
`generateBaseClient` opens every generated artifact. -/
theorem strStartsWith_append₃ (a b c d : String) :
    strStartsWith (a ++ b ++ c ++ d) a = true := by
  unfold strStartsWith
  rw [List.isPrefixOf_iff_prefix]
  show a.data <+: (a ++ b ++ c ++ d).data
  simp only [String.data_append, List.append_assoc]
  exact List.prefix_append _ _

theorem backendClient_preamble_prefix (catalog : List (String × EndpointDefinition))
    (options : GenerateOptions) :
    strStartsWith (generateBackendClientWith catalog options)
      (generateBaseClient options.environment (jsOr options.typesImportPath "../types")) = true :=
  strStartsWith_append₃
    (generateBaseClient options.environment (jsOr options.typesImportPath "../types"))
    "\n" (String.intercalate "\n" (methodBlocks catalog))
    "\n\x7d\n\nexport default KalendisClient;\n"

theorem getD_map {α : Type u} {β : Type v} (f : α → β) (d : α) (l : List α) :
    ∀ i : Nat, (l.map f).getD i (f d) = f (l.getD i d) := by
  induction l with
  | nil => intro i; simp [List.getD_nil]
  | cons a t ih =>
    intro i
    cases i with
    | zero => simp [List.getD_cons_zero]
    | succ n => simp only [List.map_cons, List.getD_cons_succ]; exact ih n

theorem emittedQueryEntries_of_all_defined (vals : List (String × Option String)) :
    (∀ q ∈ vals, q.2.isSome = true) →
    emittedQueryEntries vals = vals.map (fun q => (q.1, q.2.getD "")) := by
  induction vals with
  | nil => intro _; rfl
  | cons a t ih =>
    intro h
    obtain ⟨v, hv⟩ := Option.isSome_iff_exists.mp (h a (List.mem_cons_self a t))
    have ht := ih (fun q hq => h q (List.mem_cons_of_mem a hq))
    simp only [emittedQueryEntries] at ht
    simp [emittedQueryEntries, List.filterMap_cons, hv, ht]

/-- Applying an index sequence to a list: `permuteBy is l d` picks, for each
`i` in `is`, the `i`-th element of `l` (with default `d`).  An index sequence
that enumerates `0, …, l.length - 1` in some order is exactly a permutation
of `l`'s entries. -/
def permuteBy (is : List Nat) (l : List α) (d : α) : List α :=
  is.map (fun i => l.getD i d)

/-! ### The claims -/

/-- C1: the spec claims the backend-client preamble's base URL falls back to
the fixed default associated with the requested environment.  In the code,
`generateBaseClient` never reads its `environment` argument and the emitted
constructor always falls back to the sandbox literal: the artifact is
byte-identical for every environment, its preamble embeds the sandbox
fallback assignment and does not embed `BASE_URLS.production` — while the
development half of the claim (sandbox default when no override is set) does
hold.  This is the generator ignoring its own `BASE_URLS` table. -/
theorem generateBackendClient_base_url_independent_of_environment :
    (∀ (e₁ e₂ : Environment) (f₁ f₂ : Framework) (t o : Option String),
        generateBackendClient ⟨f₁, e₁, t, o⟩ = generateBackendClient ⟨f₂, e₂, t, o⟩) ∧
    strStartsWith (generateBackendClient ⟨Framework.vanilla, Environment.production, none, none⟩)
      (generateBaseClient Environment.production "../types") = true ∧
    strContains (generateBaseClient Environment.production "../types")
      "this.baseUrl = process.env.KALENDIS_API_URL || 'https://sandbox.api.kalendis.dev';" = true ∧
    strContains (generateBaseClient Environment.production "../types")
      (BASE_URLS none Environment.production) = false ∧
    BASE_URLS none Environment.development = "https://sandbox.api.kalendis.dev" := by
  refine ⟨fun e₁ e₂ f₁ f₂ t o => rfl,
    backendClient_preamble_prefix ENDPOINTS ⟨Framework.vanilla, Environment.production, none, none⟩,
    by decide, by decide, rfl⟩

/-- C2 counterexample: the emitted proxy wrapper `deleteAvailability` matches
the availability/booking naming convention but returns `response.json()`
directly, without the `convertToLocalTime` pass. -/
theorem deleteAvailability_wrapper_skips_conversion :
    FrontendWrapper.mk "deleteAvailability" false ∈ frontendClientWrappers ∧
    needsTimezoneConversion "deleteAvailability" = true := by
  exact ⟨by decide, by decide⟩

/-- C2 (amended): every proxy wrapper whose name matches the
availability/booking naming convention applies the timezone-localization
pass to its successful response — except the `delete*` wrappers, which
return the bare deletion-confirmation JSON unconverted. -/
theorem frontend_conversion_on_matching_nondelete_wrappers :
    ∀ w ∈ frontendClientWrappers,
      needsTimezoneConversion w.name = true →
      strStartsWith w.name "delete" = false →
      w.convertsResponse = true := by decide

/-- C2 witness: the theorem applied to the `getBookings` wrapper. -/
theorem frontend_conversion_witness :
    (FrontendWrapper.mk "getBookings" true).convertsResponse = true :=
  frontend_conversion_on_matching_nondelete_wrappers
    (FrontendWrapper.mk "getBookings" true) (by decide) (by decide) (by decide)

/-- C3 counterexample: the catalog entry `getAccount` populates neither
`params` nor `body`, refuting the claim's "never neither". -/
theorem getAccount_has_neither_params_nor_body :
    ("getAccount", getAccount) ∈ ENDPOINTS ∧
    getAccount.params = none ∧ getAccount.body = none := by
  exact ⟨by decide, rfl, rfl⟩

/-- C3 (amended): for every catalog descriptor, at most one of `params` and
`body` is populated — never both — and a populated field is verb-compatible:
GET and DELETE entries never carry a body, POST and PUT entries carry a body
and no params, and every DELETE entry carries params.  (Two GET entries,
`getUsersByAccountId` and `getAccount`, carry neither field.) -/
theorem endpoints_field_verb_compatibility :
    ∀ p ∈ ENDPOINTS,
      ¬(p.2.params.isSome = true ∧ p.2.body.isSome = true) ∧
      (p.2.method = Method.GET ∨ p.2.method = Method.DELETE → p.2.body = none) ∧
      (p.2.method = Method.POST ∨ p.2.method = Method.PUT →
        p.2.params = none ∧ p.2.body.isSome = true) ∧
      (p.2.method = Method.DELETE → p.2.params.isSome = true) := by decide

/-- C3 witness: the theorem applied to the `addUser` entry. -/
theorem endpoints_field_verb_compatibility_witness :
    addUser.params = none ∧ addUser.body.isSome = true :=
  (endpoints_field_verb_compatibility ("addUser", addUser) (by decide)).2.2.1 (Or.inl rfl)

/-- A GET descriptor violating the catalog's one-of invariant: both `params`
and `body` populated.  Not a catalog entry — built to probe `generateMethod`'s
behavior on invalid input. -/
def violatingGetDescriptor : EndpointDefinition :=
  { path := "/v1/demo/violating"
    method := Method.GET
    params := some [("id", { type := "string", required := true })]
    body := some [("name", { type := "string", required := true })]
    response := { type := "User" } }

/-- C4 counterexample: a GET descriptor carrying both `params` and `body` is
not rejected — `generateMethod` silently renders the GET-with-params shape,
producing exactly the text it produces for the same descriptor with the
extraneous `body` removed.  There is no catalog-validation failure path:
`generateMethod` is total into strings. -/
theorem violating_descriptor_rendered_not_rejected :
    generateMethod "demo" violatingGetDescriptor =
      generateMethod "demo" { violatingGetDescriptor with body := none } ∧
    shapeOf violatingGetDescriptor = MethodShape.getWithParams := by
  exact ⟨rfl, rfl⟩

/-- C4 (amended): method rendering does select exactly one of the four method
shapes for every descriptor — `shapeOf` is a total function mirroring the
branch chain and `generateMethod` renders the selected shape — but a
descriptor violating the one-of `params`/`body` invariant is not rejected:
the code has no catalog validation and silently renders the shape its verb
selects, ignoring the extraneous field. -/
theorem generateMethod_selects_exactly_one_shape :
    ∀ (name : String) (endpoint : EndpointDefinition),
      generateMethod name endpoint = renderShape name endpoint (shapeOf endpoint) := by
  intro name endpoint
  rcases endpoint with ⟨path, method, params, body, response⟩
  cases method <;> cases params <;> cases body <;> rfl

/-- C5: the type projection maps every registry name `D` to `Types.D` and
`D ++ "[]"` to `Types.D[]`, and leaves any non-registry bare name (an
alphanumeric identifier, which can hold no `[]`, `Array<` or `{`) unchanged. -/
theorem mapResponseType_registry_roundtrip :
    (∀ D ∈ knownTypes,
        mapResponseType D true = "Types." ++ D ∧
        mapResponseType (D ++ "[]") true = "Types." ++ D ++ "[]") ∧
    (∀ X : String, X.toList.all Char.isAlphanum = true → isKnownType X = false →
        mapResponseType X true = X) := by
  constructor
  · decide
  · intro X halpha hknown
    have hb : strContains X "[]" = false :=
      strContains_eq_false_of_not_mem (c := '[') (by decide)
        (not_mem_of_all_alphanum halpha (by decide))
    have ha : strStartsWith X "Array<" = false :=
      strStartsWith_eq_false_of_not_mem (c := '<') (by decide)
        (not_mem_of_all_alphanum halpha (by decide))
    simp [mapResponseType, hb, ha, hknown]

/-- C5 witness: the theorem applied to the registry name `Booking` and the
non-registry name `Widget`. -/
theorem mapResponseType_registry_roundtrip_witness :
    mapResponseType "Booking" true = "Types." ++ "Booking" ∧
    mapResponseType ("Booking" ++ "[]") true = "Types." ++ "Booking" ++ "[]" ∧
    mapResponseType "Widget" true = "Widget" :=
  ⟨(mapResponseType_registry_roundtrip.1 "Booking" (by decide)).1,
   (mapResponseType_registry_roundtrip.1 "Booking" (by decide)).2,
   mapResponseType_registry_roundtrip.2 "Widget" (by decide) (by decide)⟩

/-- C6: the emitted request wrapper classifies non-success responses: 401
throws the fixed authentication message (which contains "authentication
failed" case-insensitively), 403 the fixed permission message (containing
"permission denied"), and any other non-2xx status throws the generic
message built from the JSON body's `message`, else its `error`, else the
HTTP status line. -/
theorem emitted_request_error_classification :
    ∀ (status : Nat) (statusText : String) (body : Option JsonErrorBody),
      (status = 401 →
        requestResult status statusText body =
          Except.error "Authentication failed: Invalid or missing API key") ∧
      (status = 403 →
        requestResult status statusText body =
          Except.error "Permission denied: Your API key does not have access to this resource") ∧
      (responseOk status = false → status ≠ 401 → status ≠ 403 →
        (∀ err, body = some err →
          requestResult status statusText body =
            Except.error ("Kalendis API Error (" ++ toString status ++ "): " ++
              jsOr err.message (jsOr err.error statusText))) ∧
        (body = none →
          requestResult status statusText body =
            Except.error ("Kalendis API Error (" ++ toString status ++ "): " ++ statusText))) ∧
      strContains (strLower "Authentication failed: Invalid or missing API key")
        "authentication failed" = true ∧
      strContains (strLower "Permission denied: Your API key does not have access to this resource")
        "permission denied" = true := by
  intro status statusText body
  refine ⟨?_, ?_, ?_, by decide, by decide⟩
  · intro h; subst h; rfl
  · intro h; subst h; rfl
  · intro hok h1 h3
    have e1 : (status == 401) = false := by simpa using h1
    have e3 : (status == 403) = false := by simpa using h3
    constructor
    · intro err hb; subst hb
      simp [requestResult, hok, requestErrorMessage, e1, e3]
    · intro hb; subst hb
      simp [requestResult, hok, requestErrorMessage, e1, e3]

/-- C6 witness: the theorem applied at status 401, and at status 500 with a
JSON body carrying `message: "boom"`. -/
theorem emitted_request_error_classification_witness :
    requestResult 401 "Unauthorized" none =
      Except.error "Authentication failed: Invalid or missing API key" ∧
    requestResult 500 "Internal Server Error" (some { message := some "boom" }) =
      Except.error ("Kalendis API Error (" ++ toString 500 ++ "): " ++
        jsOr (some "boom") (jsOr none "Internal Server Error")) :=
  ⟨(emitted_request_error_classification 401 "Unauthorized" none).1 rfl,
   ((emitted_request_error_classification 500 "Internal Server Error"
      (some { message := some "boom" })).2.2.1 (by decide) (by decide) (by decide)).1
      { message := some "boom" } rfl⟩

/-- C7: every DELETE catalog descriptor with params is rendered in the
DELETE-with-params shape: a required parameter object (no `= {}` default, no
`?`-optional parameter markers), a request to `path ++ "?" ++ query` with
method DELETE; and the emitted serialization loop, on a parameter object all
of whose entries are defined (the declared types are all required, so
`undefined` cannot occur), serializes every entry into the query. -/
theorem delete_with_params_rendering :
    (∀ p ∈ ENDPOINTS, p.2.method = Method.DELETE → p.2.params.isSome = true →
        shapeOf p.2 = MethodShape.deleteWithParams ∧
        strContains (generateMethod p.1 p.2) "= \x7b\x7d" = false ∧
        strContains (generateMethod p.1 p.2)
          ("'" ++ p.2.path ++ "?' + query.toString()") = true ∧
        strContains (generateMethod p.1 p.2) "method: 'DELETE'" = true ∧
        (p.2.params.getD []).all
          (fun kv => strContains (generateMethod p.1 p.2) ("    " ++ kv.1 ++ ": ") &&
            !strContains (generateMethod p.1 p.2) (kv.1 ++ "?:")) = true) ∧
    (∀ vals : List (String × Option String), (∀ q ∈ vals, q.2.isSome = true) →
        emittedQueryEntries vals = vals.map (fun q => (q.1, q.2.getD ""))) := by
  exact ⟨by decide, emittedQueryEntries_of_all_defined⟩

/-- C7 witness: the theorem applied to the `deleteUser` entry and to a
fully-defined parameter object. -/
theorem delete_with_params_rendering_witness :
    shapeOf deleteUser = MethodShape.deleteWithParams ∧
    emittedQueryEntries [("id", some "u1")] =
      [("id", some "u1")].map (fun q => (q.1, q.2.getD "")) :=
  ⟨(delete_with_params_rendering.1 ("deleteUser", deleteUser) (by decide) rfl rfl).1,
   delete_with_params_rendering.2 [("id", some "u1")] (by decide)⟩

/-- C8: the backend client's method fragments are, in order, exactly the
rendering of the catalog's entries in insertion order; applying any index
sequence (in particular any permutation) to the catalog permutes the emitted
method blocks by exactly the same sequence, each block's text unchanged; and
the full artifact is the preamble followed by the blocks joined in that
order. -/
theorem backendClient_order_preservation :
    ∀ (catalog : List (String × EndpointDefinition)) (is : List Nat)
      (d : String × EndpointDefinition) (options : GenerateOptions),
      methodBlocks catalog = catalog.map (fun p => generateMethod p.1 p.2) ∧
      methodBlocks (permuteBy is catalog d) =
        permuteBy is (methodBlocks catalog) (generateMethod d.1 d.2) ∧
      generateBackendClientWith catalog options =
        generateBaseClient options.environment (jsOr options.typesImportPath "../types") ++
          "\n" ++ String.intercalate "\n" (methodBlocks catalog) ++
          "\n\x7d\n\nexport default KalendisClient;\n" ∧
      generateBackendClient options = generateBackendClientWith ENDPOINTS options := by
  intro catalog is d options
  refine ⟨rfl, ?_, rfl, rfl⟩
  unfold methodBlocks permuteBy
  rw [List.map_map]
  apply List.map_congr_left
  intro i _
  exact (getD_map (fun p => generateMethod p.1 p.2) d catalog i).symm

/-- C9: a route-generation request whose framework is absent or not one of
nextjs, express, fastify, nestjs is rejected with the descriptive error —
whose message names all four allowed frameworks — before any generator runs,
so no artifact is produced. -/
theorem generate_api_routes_rejects_invalid_framework :
    generateApiRoutesTool none = Except.error frameworkErrorMessage ∧
    (∀ s : String, validFrameworks.contains s = false →
        generateApiRoutesTool (some s) = Except.error frameworkErrorMessage) ∧
    strContains frameworkErrorMessage "nextjs" = true ∧
    strContains frameworkErrorMessage "express" = true ∧
    strContains frameworkErrorMessage "fastify" = true ∧
    strContains frameworkErrorMessage "nestjs" = true := by
  refine ⟨rfl, ?_, by decide, by decide, by decide, by decide⟩
  intro s h
  simp only [generateApiRoutesTool, Option.getD_some, Option.isNone_some, h]
  simp

/-- C9 witness: the theorem applied to `framework: "graphql"`. -/
theorem generate_api_routes_graphql_witness :
    generateApiRoutesTool (some "graphql") = Except.error frameworkErrorMessage :=
  generate_api_routes_rejects_invalid_framework.2.1 "graphql" (by decide)

/-- C10: the generated backend-client text depends only on the
`typesImportPath` option (and the fixed catalog): two option records agreeing
on `typesImportPath` yield identical artifacts, whatever their `environment`,
`framework` and `outputDir` fields. -/
theorem generateBackendClient_depends_only_on_typesImportPath :
    ∀ o₁ o₂ : GenerateOptions, o₁.typesImportPath = o₂.typesImportPath →
      generateBackendClient o₁ = generateBackendClient o₂ := by
  intro o₁ o₂ h
  rcases o₁ with ⟨f₁, e₁, t₁, d₁⟩
  rcases o₂ with ⟨f₂, e₂, t₂, d₂⟩
  have h' : t₁ = t₂ := h
  subst h'
  rfl

/-- C10 witness: identical artifacts across differing environment and
framework fields. -/
theorem generateBackendClient_depends_only_witness :
    generateBackendClient ⟨Framework.react, Environment.production, none, none⟩ =
      generateBackendClient ⟨Framework.express, Environment.development, none, none⟩ :=
  generateBackendClient_depends_only_on_typesImportPath _ _ rfl

end Kalendis
